import Mathlib

/-!
Shallow embedding of `homework.py`, a fitness-tracker module that turns raw
sensor readings (step count, duration, weight, plus kind-specific fields)
into distance / mean-speed / calorie summaries for three activity kinds
(Running, SportsWalking, Swimming), dispatched by a string tag.

Python floats are modelled by exact rationals (ℚ); Python int fields are
also carried as ℚ since they only ever enter rational arithmetic.  Division
follows Lean's convention `x / 0 = 0`; wherever a claim depends on a divisor
being nonzero, that is an explicit hypothesis of the theorem.
-/

namespace Homework

/-- Embeds the dataclass `InfoMessage` (homework.py lines 4-28): the
read-only summary view with the training kind's name and the four numeric
fields. -/
structure InfoMessage where
  training_type : String
  duration : ℚ
  distance : ℚ
  speed : ℚ
  calories : ℚ

/-- Rounding of a rational to the nearest integer (halves rounded up),
computed as `⌊q + 1/2⌋ = (2*num + den).fdiv (2*den)` so that the kernel can
evaluate it on concrete inputs. -/
def roundNearest (q : ℚ) : ℤ :=
  (2 * q.num + (q.den : ℤ)).fdiv (2 * (q.den : ℤ))

/-- Fixed-point rendering of a rational with exactly three digits after the
decimal point, modelling the Python format spec `:1.3f` used in
`InfoMessage.DEFAULT_MESSAGE` (homework.py lines 19-21): the value is
rounded to the nearest thousandth and printed with a three-digit fractional
part (the minimum field width 1 in `:1.3f` never pads, since the output is
always at least five characters). -/
def formatFixed3 (q : ℚ) : String :=
  let scaled : ℤ := roundNearest (q * 1000)
  let sign : String := if scaled < 0 then "-" else ""
  let n : ℕ := scaled.natAbs
  let ip : ℕ := n / 1000
  let f : ℕ := n % 1000
  sign ++ toString ip ++ "." ++
    String.mk [Nat.digitChar (f / 100), Nat.digitChar (f / 10 % 10),
               Nat.digitChar (f % 10)]

/-- Embeds `InfoMessage.get_message` (homework.py lines 23-28): the five
fields are substituted into the fixed template `DEFAULT_MESSAGE`
(`'Тип тренировки: ...; Длительность: ... ч.; Дистанция: ... км; Ср.
скорость: ... км/ч; Потрачено ккал: ....'`), each float formatted with
`:1.3f`. -/
def InfoMessage.get_message (m : InfoMessage) : String :=
  "Тип тренировки: " ++ m.training_type
    ++ "; Длительность: " ++ formatFixed3 m.duration
    ++ " ч.; Дистанция: " ++ formatFixed3 m.distance
    ++ " км; Ср. скорость: " ++ formatFixed3 m.speed
    ++ " км/ч; Потрачено ккал: " ++ formatFixed3 m.calories ++ "."

/-- Modelled from the spec: the English template the specification quotes in
section 4.3 (`"Activity type: ...; Duration: ... h; Distance: ... km; Avg
speed: ... km/h; Calories burned: ...."`), for comparison against the
source's `InfoMessage.get_message` above. -/
def spec_get_message (m : InfoMessage) : String :=
  "Activity type: " ++ m.training_type
    ++ "; Duration: " ++ formatFixed3 m.duration
    ++ " h; Distance: " ++ formatFixed3 m.distance
    ++ " km; Avg speed: " ++ formatFixed3 m.speed
    ++ " km/h; Calories burned: " ++ formatFixed3 m.calories ++ "."

/-- Embeds the concrete activity-record hierarchy of homework.py as a closed
sum: `Running` (lines 74-86) adds nothing to the base fields, `SportsWalking`
(lines 89-115) adds `height_cm`, `Swimming` (lines 118-147) adds
`length_pool_m` and `count_pool`.  The abstract base `Training` itself is
never instantiated by the program (its `get_spent_calories` raises
`NotImplementedError`), so only the three concrete variants appear. -/
inductive Training where
  | running (action duration weight : ℚ)
  | sportsWalking (action duration weight height : ℚ)
  | swimming (action duration weight length_pool count_pool : ℚ)

namespace Training

/-- Class constant `Training.M_IN_KM = 1000` (homework.py line 40). -/
def M_IN_KM : ℚ := 1000

/-- Class constant `Training.DURATION_MINUTES = 60` (homework.py line 41). -/
def DURATION_MINUTES : ℚ := 60

/-- Field `self.action` (homework.py line 48), common to all variants. -/
def action : Training → ℚ
  | .running a _ _ => a
  | .sportsWalking a _ _ _ => a
  | .swimming a _ _ _ _ => a

/-- Field `self.duration_hr` (homework.py line 49), common to all variants. -/
def duration_hr : Training → ℚ
  | .running _ d _ => d
  | .sportsWalking _ d _ _ => d
  | .swimming _ d _ _ _ => d

/-- Field `self.weight_kg` (homework.py line 50), common to all variants. -/
def weight_kg : Training → ℚ
  | .running _ _ w => w
  | .sportsWalking _ _ w _ => w
  | .swimming _ _ w _ _ => w

/-- Class attribute `LEN_STEP`: `0.65` on the base class (homework.py line
39), overridden to `1.38` in `Swimming` (line 126). -/
def LEN_STEP : Training → ℚ
  | .swimming _ _ _ _ _ => 1.38
  | _ => 0.65

/-- Python `self.__class__.__name__`, as used by `show_training_info`
(homework.py line 66). -/
def kindName : Training → String
  | .running _ _ _ => "Running"
  | .sportsWalking _ _ _ _ => "SportsWalking"
  | .swimming _ _ _ _ _ => "Swimming"

/-- Embeds `Training.get_distance` (homework.py lines 52-54):
`self.action * self.LEN_STEP / self.M_IN_KM`.  Inherited unchanged by all
three variants (Swimming only overrides the `LEN_STEP` constant). -/
def get_distance (t : Training) : ℚ :=
  t.action * t.LEN_STEP / M_IN_KM

/-- Embeds `get_mean_speed`: the base method (homework.py lines 56-58) is
`self.get_distance() / self.duration_hr`, inherited by Running and
SportsWalking; Swimming overrides it (lines 138-141) with
`self.length_pool_m * self.count_pool / self.M_IN_KM / self.duration_hr`. -/
def get_mean_speed : Training → ℚ
  | .swimming _ d _ lp cp => lp * cp / M_IN_KM / d
  | t => t.get_distance / t.duration_hr

/-- Embeds the three concrete `get_spent_calories` overrides:
Running (homework.py lines 79-86) with constants 18 and 1.79;
SportsWalking (lines 107-115) with constants 0.035, 0.029, 0.278 and 100;
Swimming (lines 143-147) with constants 1.1 and 2. -/
def get_spent_calories : Training → ℚ
  | .running a d w =>
      (18 * (Training.running a d w).get_mean_speed + 1.79)
        * w / M_IN_KM * (d * DURATION_MINUTES)
  | .sportsWalking a d w h =>
      let mean_speed : ℚ := (Training.sportsWalking a d w h).get_mean_speed * 0.278
      let height_in_m : ℚ := h / 100
      let time_trainung_in_min : ℚ := d * DURATION_MINUTES
      (0.035 * w + (mean_speed ^ 2 / height_in_m) * 0.029 * w)
        * time_trainung_in_min
  | .swimming a d w lp cp =>
      ((Training.swimming a d w lp cp).get_mean_speed + 1.1) * 2 * w * d

/-- Embeds `Training.show_training_info` (homework.py lines 64-71): builds
an `InfoMessage` from the class name, the duration and the three computed
quantities. -/
def show_training_info (t : Training) : InfoMessage :=
  { training_type := t.kindName
    duration := t.duration_hr
    distance := t.get_distance
    speed := t.get_mean_speed
    calories := t.get_spent_calories }

/-- The divisors occurring in the source text of `get_distance`,
`get_mean_speed` and `get_spent_calories` for each variant, read off
homework.py: all variants divide by `M_IN_KM = 1000` (lines 54, 83, 140) and
by `self.duration_hr` (lines 58, 140); SportsWalking additionally divides
`self.height_cm` by `C_IN_M = 100` (line 109) and then divides by the
resulting `height_in_m` (line 112). -/
def divisors : Training → List ℚ
  | .running _ d _ => [(1000 : ℚ), d]
  | .sportsWalking _ d _ h => [(1000 : ℚ), d, 100, h / 100]
  | .swimming _ d _ _ _ => [(1000 : ℚ), d]

end Training

/-- The dispatcher error kinds: `unknownActivityType` models the explicit
`ValueError('Неверный тип тренировки')` raised for an unrecognized tag
(homework.py line 157); `constructionFailure` models the Python `TypeError`
that an arity-mismatched `*data` splat raises at construction time (line
159), which the source does not handle specially. -/
inductive DispatchError where
  | unknownActivityType
  | constructionFailure
deriving DecidableEq

/-- Embeds `read_package` (homework.py lines 150-159): looks the tag up in
the dict `SWM ↦ Swimming, RUN ↦ Running, WLK ↦ SportsWalking`, raises the
unknown-activity `ValueError` when the tag is absent, and otherwise calls
the selected constructor with the fields splatted positionally. -/
def read_package (workout_type : String) (data : List ℚ) :
    Except DispatchError Training :=
  if workout_type = "SWM" then
    match data with
    | [a, d, w, lp, cp] => .ok (.swimming a d w lp cp)
    | _ => .error .constructionFailure
  else if workout_type = "RUN" then
    match data with
    | [a, d, w] => .ok (.running a d w)
    | _ => .error .constructionFailure
  else if workout_type = "WLK" then
    match data with
    | [a, d, w, h] => .ok (.sportsWalking a d w h)
    | _ => .error .constructionFailure
  else
    .error .unknownActivityType

end Homework

/-! ### Helper lemmas -/

namespace Homework

/-- Appending strings concatenates their character lists. -/
theorem data_append (s t : String) : (s ++ t).data = s.data ++ t.data := rfl

/-- A digit character below the hexadecimal range is never the decimal
point. -/
theorem digitChar_ne_dot (d : ℕ) (hd : d < 16) : Nat.digitChar d ≠ '.' := by
  interval_cases d <;> decide

/-- A string of the shape `s ++ "." ++ ⟨[c₁, c₂, c₃]⟩` with non-dot `cᵢ`
contains a dot and has exactly three characters after its last dot. -/
theorem append_dot_three (s : String) (c1 c2 c3 : Char)
    (h1 : c1 ≠ '.') (h2 : c2 ≠ '.') (h3 : c3 ≠ '.') :
    '.' ∈ (s ++ "." ++ String.mk [c1, c2, c3]).data ∧
      ((s ++ "." ++ String.mk [c1, c2, c3]).data.reverse.takeWhile
          fun c => c ≠ '.').length = 3 := by
  have hdot : ("." : String).data = ['.'] := rfl
  have hd : (s ++ "." ++ String.mk [c1, c2, c3]).data
      = s.data ++ ['.'] ++ [c1, c2, c3] := by
    rw [data_append, data_append, hdot]
  rw [hd]
  constructor
  · simp
  · simp [List.takeWhile_cons, h1, h2, h3]

/-- Every string produced by `formatFixed3` contains a decimal point and has
exactly three characters after its last decimal point. -/
theorem formatFixed3_decimals (q : ℚ) :
    '.' ∈ (formatFixed3 q).data ∧
      ((formatFixed3 q).data.reverse.takeWhile fun c => c ≠ '.').length = 3 := by
  have h100 : (roundNearest (q * 1000)).natAbs % 1000 / 100 < 16 := by omega
  have h10 : (roundNearest (q * 1000)).natAbs % 1000 / 10 % 10 < 16 := by omega
  have h1 : (roundNearest (q * 1000)).natAbs % 1000 % 10 < 16 := by omega
  exact append_dot_three
    ((if roundNearest (q * 1000) < 0 then "-" else "")
      ++ toString ((roundNearest (q * 1000)).natAbs / 1000))
    _ _ _ (digitChar_ne_dot _ h100) (digitChar_ne_dot _ h10)
    (digitChar_ne_dot _ h1)

end Homework

namespace Homework


/-- C2: for every SportsWalking record with nonzero duration and height,
`get_spent_calories` equals `(0.035 * weight + (speed_ms^2 / height_m) *
0.029 * weight) * duration_min` where `speed_ms = mean_speed_kmh * 0.278`,
`height_m = height_cm / 100`, `duration_min = duration_hours * 60` and
`mean_speed_kmh = action * 0.65 / 1000 / duration_hours`. -/
theorem claim_C2 (a d w h : ℚ) (hd : d ≠ 0) (hh : h ≠ 0) :
    (Training.sportsWalking a d w h).get_spent_calories
      = (0.035 * w + (((a * 0.65 / 1000 / d) * 0.278) ^ 2 / (h / 100))
          * 0.029 * w) * (d * 60) := by
  simp [Training.get_spent_calories, Training.get_mean_speed,
    Training.get_distance, Training.LEN_STEP, Training.M_IN_KM,
    Training.DURATION_MINUTES, Training.action, Training.duration_hr]

/-- Witness for C2 at the demo input 9000, 1, 75, 180. -/
theorem claim_C2_witness :
    ((1 : ℚ) ≠ 0 ∧ (180 : ℚ) ≠ 0) ∧
      (Training.sportsWalking 9000 1 75 180).get_spent_calories
        = (0.035 * 75 + (((9000 * 0.65 / 1000 / 1) * 0.278) ^ 2 / (180 / 100))
            * 0.029 * 75) * (1 * 60) :=
  ⟨⟨by norm_num, by norm_num⟩, claim_C2 9000 1 75 180 (by norm_num) (by norm_num)⟩

/-- C3: for every Swimming record with nonzero duration, `get_mean_speed`
equals `length_pool * count_pool / 1000 / duration_hours`, is independent of
the action count (no step-length constant enters it), and `get_distance`
still equals `action * 1.38 / 1000`. -/
theorem claim_C3 (a d w lp cp : ℚ) (hd : d ≠ 0) :
    (Training.swimming a d w lp cp).get_mean_speed = lp * cp / 1000 / d
    ∧ (∀ a' : ℚ, (Training.swimming a' d w lp cp).get_mean_speed
        = (Training.swimming a d w lp cp).get_mean_speed)
    ∧ (Training.swimming a d w lp cp).get_distance = a * 1.38 / 1000 := by
  refine ⟨?_, fun a' => ?_, ?_⟩ <;>
    simp [Training.get_mean_speed, Training.get_distance, Training.LEN_STEP,
      Training.M_IN_KM, Training.action]

/-- Witness for C3 at the demo input 720, 1, 80, 25, 40. -/
theorem claim_C3_witness :
    (1 : ℚ) ≠ 0 ∧
      (Training.swimming 720 1 80 25 40).get_mean_speed = 25 * 40 / 1000 / 1 :=
  ⟨by norm_num, (claim_C3 720 1 80 25 40 (by norm_num)).1⟩

/-- C4: for every Swimming record with nonzero duration, `get_spent_calories`
equals `(mean_speed_kmh + 1.1) * 2 * weight * duration_hours` with
`mean_speed_kmh = length_pool * count_pool / 1000 / duration_hours`; at the
demo input 720, 1, 80, 25, 40 the calories are exactly 336 and the mean
speed exactly 1. -/
theorem claim_C4 (a d w lp cp : ℚ) (hd : d ≠ 0) :
    (Training.swimming a d w lp cp).get_spent_calories
      = (lp * cp / 1000 / d + 1.1) * 2 * w * d
    ∧ (Training.swimming 720 1 80 25 40).get_spent_calories = 336
    ∧ (Training.swimming 720 1 80 25 40).get_mean_speed = 1 := by
  refine ⟨?_, ?_, ?_⟩ <;>
    norm_num [Training.get_spent_calories, Training.get_mean_speed,
      Training.M_IN_KM]

/-- Witness for C4 at the demo input 720, 1, 80, 25, 40. -/
theorem claim_C4_witness :
    (1 : ℚ) ≠ 0 ∧
      (Training.swimming 720 1 80 25 40).get_spent_calories
        = (25 * 40 / 1000 / 1 + 1.1) * 2 * 80 * 1 :=
  ⟨by norm_num, (claim_C4 720 1 80 25 40 (by norm_num)).1⟩

/-- C5: Running and SportsWalking records have `get_distance = action * 0.65
/ 1000`, Swimming has `get_distance = action * 1.38 / 1000`, and for Running
and SportsWalking `get_mean_speed = get_distance / duration_hours`. -/
theorem claim_C5 (a d w h lp cp : ℚ) (hd : d ≠ 0) :
    (Training.running a d w).get_distance = a * 0.65 / 1000
    ∧ (Training.sportsWalking a d w h).get_distance = a * 0.65 / 1000
    ∧ (Training.swimming a d w lp cp).get_distance = a * 1.38 / 1000
    ∧ (Training.running a d w).get_mean_speed
        = (Training.running a d w).get_distance / d
    ∧ (Training.sportsWalking a d w h).get_mean_speed
        = (Training.sportsWalking a d w h).get_distance / d := by
  refine ⟨?_, ?_, ?_, ?_, ?_⟩ <;>
    simp [Training.get_mean_speed, Training.get_distance, Training.LEN_STEP,
      Training.M_IN_KM, Training.action, Training.duration_hr]

/-- Witness for C5 at the demo Running input 15000, 1, 75. -/
theorem claim_C5_witness :
    (1 : ℚ) ≠ 0 ∧ (Training.running 15000 1 75).get_distance
      = 15000 * 0.65 / 1000 :=
  ⟨by norm_num, (claim_C5 15000 1 75 0 0 0 (by norm_num)).1⟩

end Homework

namespace Homework

/-- C6: `read_package` yields the unknown-activity-type error exactly when
the tag is none of SWM, RUN, WLK; for those three tags it builds the
matching variant, binding the fields positionally as action, duration,
weight, then the kind-specific fields. -/
theorem claim_C6 :
    (∀ (tag : String) (data : List ℚ),
        read_package tag data = .error .unknownActivityType ↔
          ¬(tag = "SWM" ∨ tag = "RUN" ∨ tag = "WLK"))
    ∧ (∀ a d w lp cp : ℚ,
        read_package "SWM" [a, d, w, lp, cp] = .ok (.swimming a d w lp cp))
    ∧ (∀ a d w : ℚ, read_package "RUN" [a, d, w] = .ok (.running a d w))
    ∧ (∀ a d w h : ℚ,
        read_package "WLK" [a, d, w, h] = .ok (.sportsWalking a d w h)) := by
  refine ⟨fun tag data => ?_, fun a d w lp cp => ?_, fun a d w => ?_,
    fun a d w h => ?_⟩
  · by_cases h1 : tag = "SWM" <;> by_cases h2 : tag = "RUN" <;>
      by_cases h3 : tag = "WLK" <;>
      rcases data with _ | ⟨a, _ | ⟨b, _ | ⟨c, _ | ⟨e, _ | ⟨f, _ | ⟨g, l⟩⟩⟩⟩⟩⟩ <;>
      simp [read_package, h1, h2, h3]
  · simp [read_package]
  · simp [read_package]
  · simp [read_package]

/-- C10: any record successfully produced by `read_package` carries, in the
summary message it builds, the class name matching its tag: Swimming for
SWM, Running for RUN, SportsWalking (not Walking) for WLK. -/
theorem claim_C10 (tag : String) (data : List ℚ) (t : Training)
    (hok : read_package tag data = .ok t) :
    (tag = "SWM" → (t.show_training_info).training_type = "Swimming")
    ∧ (tag = "RUN" → (t.show_training_info).training_type = "Running")
    ∧ (tag = "WLK" → (t.show_training_info).training_type = "SportsWalking") := by
  refine ⟨fun htag => ?_, fun htag => ?_, fun htag => ?_⟩ <;>
    subst htag <;>
    rcases data with _ | ⟨a, _ | ⟨b, _ | ⟨c, _ | ⟨e, _ | ⟨f, _ | ⟨g, l⟩⟩⟩⟩⟩⟩ <;>
    simp [read_package] at hok <;>
    simp [← hok, Training.show_training_info, Training.kindName]

/-- Witness for C10 at the demo RUN package. -/
theorem claim_C10_witness :
    ((Training.running 15000 1 75).show_training_info).training_type
      = "Running" :=
  (claim_C10 "RUN" [15000, 1, 75] (.running 15000 1 75)
    (by simp [read_package])).2.1 rfl

end Homework

namespace Homework

/-- C7 counterexample: at a concrete record the message the source renders
differs from the English template the claim quotes (the source's labels are
Russian). -/
theorem claim_C7_counterexample :
    (InfoMessage.mk "Running" 1 1 1 1).get_message
      ≠ spec_get_message (InfoMessage.mk "Running" 1 1 1 1) := by
  decide

/-- C7 (amended): the formatter renders exactly the source's fixed template
(`Тип тренировки: ...; Длительность: ... ч.; Дистанция: ... км; Ср.
скорость: ... км/ч; Потрачено ккал: ....`), and every one of the four
numeric fields is printed with exactly three characters after its decimal
point, regardless of magnitude. -/
theorem claim_C7 (m : InfoMessage) :
    m.get_message
      = "Тип тренировки: " ++ m.training_type
          ++ "; Длительность: " ++ formatFixed3 m.duration
          ++ " ч.; Дистанция: " ++ formatFixed3 m.distance
          ++ " км; Ср. скорость: " ++ formatFixed3 m.speed
          ++ " км/ч; Потрачено ккал: " ++ formatFixed3 m.calories ++ "."
    ∧ ∀ q : ℚ, '.' ∈ (formatFixed3 q).data ∧
        ((formatFixed3 q).data.reverse.takeWhile fun c => c ≠ '.').length = 3 :=
  ⟨rfl, fun q => formatFixed3_decimals q⟩

/-- C8 counterexample: the Running demo input yields exactly 797.805
calories, which is more than 0.005 away from the claimed 801.77, so it
cannot round to 801.77 at two decimal places. -/
theorem claim_C8_counterexample :
    (Training.running 15000 1 75).get_spent_calories = 797.805
    ∧ (0.005 : ℚ) < |(797.805 : ℚ) - 801.77| := by
  constructor
  · norm_num [Training.get_spent_calories, Training.get_mean_speed,
      Training.get_distance, Training.LEN_STEP, Training.M_IN_KM,
      Training.DURATION_MINUTES, Training.action, Training.duration_hr]
  · rw [abs_of_nonpos] <;> norm_num

/-- C8 (amended): for the Running input 15000, 1, 75 the distance is 9.75,
the mean speed is 9.75, and the calories are exactly 797.805 (797.81 to two
decimal places, not 801.77). -/
theorem claim_C8 :
    (Training.running 15000 1 75).get_distance = 9.75
    ∧ (Training.running 15000 1 75).get_mean_speed = 9.75
    ∧ (Training.running 15000 1 75).get_spent_calories = 797.805 := by
  refine ⟨?_, ?_, ?_⟩ <;>
    norm_num [Training.get_spent_calories, Training.get_mean_speed,
      Training.get_distance, Training.LEN_STEP, Training.M_IN_KM,
      Training.DURATION_MINUTES, Training.action, Training.duration_hr]

/-- C9 counterexample: duration alone does not make every division safe — a
SportsWalking record with positive duration and zero height feeds the zero
divisor `height_cm / 100 = 0` into its calorie formula. -/
theorem claim_C9_counterexample :
    ¬(∀ t : Training, 0 < t.duration_hr → ∀ x ∈ t.divisors, x ≠ 0) := by
  intro hall
  have hmem : (0 : ℚ) / 100 ∈ (Training.sportsWalking 0 1 70 0).divisors := by
    simp [Training.divisors]
  have hd : (0 : ℚ) < (Training.sportsWalking 0 1 70 0).duration_hr := by
    simp [Training.duration_hr]
  exact hall _ hd _ hmem (by norm_num)

/-- C9 (amended): with positive duration, and additionally nonzero height
for SportsWalking records, every divisor occurring in `get_distance`,
`get_mean_speed` and `get_spent_calories` is nonzero. -/
theorem claim_C9 (t : Training) (hd : 0 < t.duration_hr)
    (hh : ∀ a d w h, t = .sportsWalking a d w h → h ≠ 0) :
    ∀ x ∈ t.divisors, x ≠ 0 := by
  intro x hx
  cases t with
  | running a d w =>
      simp [Training.divisors] at hx
      simp [Training.duration_hr] at hd
      rcases hx with h | h <;> subst h
      · norm_num
      · exact hd.ne'
  | sportsWalking a d w h =>
      have hne : h ≠ 0 := hh a d w h rfl
      simp [Training.divisors] at hx
      simp [Training.duration_hr] at hd
      rcases hx with h1 | h1 | h1 | h1 <;> subst h1
      · norm_num
      · exact hd.ne'
      · norm_num
      · exact div_ne_zero hne (by norm_num)
  | swimming a d w lp cp =>
      simp [Training.divisors] at hx
      simp [Training.duration_hr] at hd
      rcases hx with h | h <;> subst h
      · norm_num
      · exact hd.ne'

/-- Witness for C9 at a Running record with unit fields. -/
theorem claim_C9_witness : (0 : ℚ) < 1 ∧ (1 : ℚ) ≠ 0 :=
  ⟨one_pos,
    claim_C9 (.running 1 1 1) one_pos
      (fun a d w h hcontra => Training.noConfusion hcontra) 1
      (by simp [Training.divisors])⟩

end Homework

namespace Homework

/-- Witness for C6 at the demo RUN package. -/
theorem claim_C6_witness :
    read_package "RUN" [15000, 1, 75] = .ok (.running 15000 1 75) :=
  claim_C6.2.2.1 15000 1 75

/-- Witness for C7 at a concrete record. -/
theorem claim_C7_witness :
    (InfoMessage.mk "Running" 1 1 1 1).get_message
      = "Тип тренировки: " ++ "Running"
          ++ "; Длительность: " ++ formatFixed3 1
          ++ " ч.; Дистанция: " ++ formatFixed3 1
          ++ " км; Ср. скорость: " ++ formatFixed3 1
          ++ " км/ч; Потрачено ккал: " ++ formatFixed3 1 ++ "." :=
  (claim_C7 (InfoMessage.mk "Running" 1 1 1 1)).1

end Homework

namespace Homework

/-- C1: for every Running record with nonzero duration, `get_spent_calories`
equals `(18 * mean_speed_kmh + 1.79) * weight_kg / 1000 *
(duration_hours * 60)` with `mean_speed_kmh = action * 0.65 / 1000 /
duration_hours`. -/
theorem claim_C1 (a d w : ℚ) (hd : d ≠ 0) :
    (Training.running a d w).get_spent_calories
      = (18 * (a * 0.65 / 1000 / d) + 1.79) * w / 1000 * (d * 60) := by
  simp [Training.get_spent_calories, Training.get_mean_speed,
    Training.get_distance, Training.LEN_STEP, Training.M_IN_KM,
    Training.DURATION_MINUTES, Training.action, Training.duration_hr]

/-- Witness for C1 at the demo input 15000, 1, 75. -/
theorem claim_C1_witness :
    (1 : ℚ) ≠ 0 ∧
      (Training.running 15000 1 75).get_spent_calories
        = (18 * (15000 * 0.65 / 1000 / 1) + 1.79) * 75 / 1000 * (1 * 60) :=
  ⟨by norm_num, claim_C1 15000 1 75 (by norm_num)⟩

end Homework
